import Mathlib

/-!
# Verification of the youtube-uploader command-line tool

Shallow embedding of the two source variants of the uploader:

* `src/youtube_uploader/main.py` — namespace `YUMain`
* `src/upload.py`                — namespace `YULegacy`

The external collaborators (pickle, the OAuth client library, the
resumable-upload client, json) are modelled as oracles supplied through an
environment record: each oracle field holds the outcome the corresponding
library call would produce in the run under study.  The embedded functions
are direct transcriptions of the Python control flow; each returns a result
record that carries the run outcome together with its observable effects
(refresh calls, interactive-flow entries, token-store writes, client-secret
opens, stdout traffic, process-exit requests).
-/

/-- A cached OAuth credential bundle (`google.oauth2.credentials.Credentials`).
`token` is the opaque access token, kept only so that distinct credential
objects are distinguishable. -/
structure Credentials where
  valid : Bool
  expired : Bool
  refresh_token : Option String
  token : String
deriving DecidableEq

/-- The Python exceptions the embedded code distinguishes. -/
inductive PyError where
  /-- `FileNotFoundError` from `open` on a missing path. -/
  | fileNotFound
  /-- `pickle.UnpicklingError` (or kin) from `pickle.load` on a corrupt cache. -/
  | unpickling
  /-- `json.JSONDecodeError` from `json.load` on invalid JSON. -/
  | jsonDecode
  /-- `googleapiclient.errors.ResumableUploadError`, carrying `str(error)`. -/
  | resumable (msg : String)
  /-- `StopIteration` raised by an exhausted mock side-effect list. -/
  | stopIteration
  /-- Any other exception, carrying its message. -/
  | other (msg : String)
deriving DecidableEq

/-- The client handle returned by `build("youtube", "v3", credentials=c)`:
it is bound to exactly the credential passed in. -/
structure Service where
  credentials : Credentials
deriving DecidableEq

instance {ε α : Type} [DecidableEq ε] [DecidableEq α] :
    DecidableEq (Except ε α) := fun a b =>
  match a, b with
  | .ok x, .ok y =>
      if h : x = y then isTrue (by rw [h])
      else isFalse (by intro hc; cases hc; exact h rfl)
  | .error x, .error y =>
      if h : x = y then isTrue (by rw [h])
      else isFalse (by intro hc; cases hc; exact h rfl)
  | .ok _, .error _ => isFalse (by intro hc; cases hc)
  | .error _, .ok _ => isFalse (by intro hc; cases hc)

/-- Oracle environment for one run of `get_authenticated_service`.  Each field
records what the corresponding external call would yield in this run. -/
structure AuthEnv where
  /-- `os.path.exists(token_file)` -/
  tokenFileExists : Bool
  /-- outcome of `pickle.load(f)` on the token file (consulted only when the
  file exists) -/
  tokenFileLoad : Except PyError Credentials
  /-- outcome of `credentials.refresh(Request())`: the refreshed credential,
  or the exception the refresh call raises -/
  refreshOutcome : Except PyError Credentials
  /-- outcome of reading the client-secret file
  (`InstalledAppFlow.from_client_secrets_file`, or `open` + `json.load` in the
  legacy device branch) -/
  clientSecretLoad : Except PyError Unit
  /-- the URL returned by `flow.authorization_url(prompt="consent")` -/
  authUrl : String
  /-- outcome of the manual-code exchange (`flow.fetch_token` +
  `flow.credentials` in `YUMain`; `flow.run_console()` in `YULegacy`) -/
  deviceFlowOutcome : Except PyError Credentials
  /-- outcome of `flow.run_local_server(port=0)` -/
  localServerOutcome : Except PyError Credentials

/-- Result of one run of `get_authenticated_service`, with its observable
effects. -/
structure AuthResult where
  /-- the returned service handle, or the exception that propagated -/
  outcome : Except PyError Service
  /-- number of `credentials.refresh` calls performed -/
  refreshCalls : Nat
  /-- number of times the manual-code (device) interactive branch was entered -/
  deviceFlowEntries : Nat
  /-- number of times the local-server (browser) interactive branch was entered -/
  localServerEntries : Nat
  /-- contents written to the token store, in order (`pickle.dump` calls) -/
  tokenWrites : List Credentials
  /-- number of attempts to open the client-secret file -/
  clientSecretOpens : Nat
  /-- lines produced by `print` calls inside the function -/
  messages : List String
  /-- argument of a `sys.exit` call, if the function performed one -/
  exitCode : Option Nat
deriving DecidableEq

/-- Python truthiness of `credentials.refresh_token`: `None` and the empty
string are falsy. -/
def refreshTokenTruthy (c : Credentials) : Bool :=
  match c.refresh_token with
  | none => false
  | some s => !(s == "")

/-- `True` iff the run starts with a token file that deserializes to a
credential whose `valid` flag is set (the cache-hit fast path). -/
def cachedValid (env : AuthEnv) : Bool :=
  env.tokenFileExists &&
    (match env.tokenFileLoad with
     | .ok c => c.valid
     | .error _ => false)

namespace YUMain

/-- The three prompt lines printed by the manual-code branch of
`src/youtube_uploader/main.py` before blocking on `input()`. -/
def devicePrompts (authUrl : String) : List String :=
  ["\n🔗 Please visit this URL on any device with internet access:",
   "   " ++ authUrl,
   "\n📋 After authorization, you\x27ll get an authorization code."]

/-- The interactive-authorization block of `get_authenticated_service` in
`src/youtube_uploader/main.py` (lines 48–71): one of the two mutually
exclusive flows, followed on success by the `pickle.dump` of the new
credential and the `build` call. -/
def interactiveAuth (env : AuthEnv) (use_device_flow : Bool) : AuthResult :=
  if use_device_flow then
    match env.clientSecretLoad with
    | .error e =>
        ⟨.error e, 0, 1, 0, [], 1, [], none⟩
    | .ok _ =>
        match env.deviceFlowOutcome with
        | .error e =>
            ⟨.error e, 0, 1, 0, [], 1, devicePrompts env.authUrl, none⟩
        | .ok c =>
            ⟨.ok ⟨c⟩, 0, 1, 0, [c], 1, devicePrompts env.authUrl, none⟩
  else
    match env.clientSecretLoad with
    | .error e =>
        ⟨.error e, 0, 0, 1, [], 1, [], none⟩
    | .ok _ =>
        match env.localServerOutcome with
        | .error e =>
            ⟨.error e, 0, 0, 1, [], 1, [], none⟩
        | .ok c =>
            ⟨.ok ⟨c⟩, 0, 0, 1, [c], 1, [], none⟩

/-- `get_authenticated_service` from `src/youtube_uploader/main.py`
(lines 20–74), transcribed branch for branch. -/
def get_authenticated_service (env : AuthEnv) (use_device_flow : Bool) :
    AuthResult :=
  -- credentials = None; if os.path.exists(token_file): pickle.load(f)
  if env.tokenFileExists then
    match env.tokenFileLoad with
    | .error e =>
        -- pickle.load raised: no handler anywhere in the function
        ⟨.error e, 0, 0, 0, [], 0, [], none⟩
    | .ok c =>
        -- if not credentials or not credentials.valid:
        if c.valid then
          -- cache hit: straight to build(...)
          ⟨.ok ⟨c⟩, 0, 0, 0, [], 0, [], none⟩
        else if c.expired && refreshTokenTruthy c then
          -- credentials.refresh(Request()) — not wrapped in any handler
          match env.refreshOutcome with
          | .error e => ⟨.error e, 1, 0, 0, [], 0, [], none⟩
          | .ok c2 => ⟨.ok ⟨c2⟩, 1, 0, 0, [c2], 0, [], none⟩
        else
          interactiveAuth env use_device_flow
  else
    -- no token file: credentials is None, go straight to interactive auth
    interactiveAuth env use_device_flow

end YUMain

namespace YULegacy

/-- The interactive-authorization block of `get_authenticated_service` in
`src/upload.py` (lines 48–65): the device branch reads the client-secret file
itself (`open` + `json.load`) and calls `flow.run_console()`, printing
nothing of its own; the browser branch is identical to `YUMain`. -/
def interactiveAuth (env : AuthEnv) (use_device_flow : Bool) : AuthResult :=
  if use_device_flow then
    match env.clientSecretLoad with
    | .error e =>
        ⟨.error e, 0, 1, 0, [], 1, [], none⟩
    | .ok _ =>
        match env.deviceFlowOutcome with
        | .error e =>
            ⟨.error e, 0, 1, 0, [], 1, [], none⟩
        | .ok c =>
            ⟨.ok ⟨c⟩, 0, 1, 0, [c], 1, [], none⟩
  else
    match env.clientSecretLoad with
    | .error e =>
        ⟨.error e, 0, 0, 1, [], 1, [], none⟩
    | .ok _ =>
        match env.localServerOutcome with
        | .error e =>
            ⟨.error e, 0, 0, 1, [], 1, [], none⟩
        | .ok c =>
            ⟨.ok ⟨c⟩, 0, 0, 1, [c], 1, [], none⟩

/-- `get_authenticated_service` from `src/upload.py` (lines 20–68): identical
to the `YUMain` variant except for the device branch inside the interactive
block. -/
def get_authenticated_service (env : AuthEnv) (use_device_flow : Bool) :
    AuthResult :=
  if env.tokenFileExists then
    match env.tokenFileLoad with
    | .error e =>
        ⟨.error e, 0, 0, 0, [], 0, [], none⟩
    | .ok c =>
        if c.valid then
          ⟨.ok ⟨c⟩, 0, 0, 0, [], 0, [], none⟩
        else if c.expired && refreshTokenTruthy c then
          match env.refreshOutcome with
          | .error e => ⟨.error e, 1, 0, 0, [], 0, [], none⟩
          | .ok c2 => ⟨.ok ⟨c2⟩, 1, 0, 0, [c2], 0, [], none⟩
        else
          interactiveAuth env use_device_flow
  else
    interactiveAuth env use_device_flow

end YULegacy

/-! ## The upload driver -/

/-- What one call to `request.next_chunk()` yields.  Response and metadata
documents are opaque to the uploader, so they are carried as strings. -/
inductive ChunkStep where
  /-- `(status, None)` with `status.progress() = p` -/
  | progress (p : ℚ)
  /-- `(None, response)` -/
  | done (resp : String)
  /-- `next_chunk` raised `e` -/
  | raise (e : PyError)
deriving DecidableEq

/-- Python `int(q)`: truncation toward zero. -/
def pythonInt (q : ℚ) : Int :=
  if q < 0 then ⌈q⌉ else ⌊q⌋

/-- The exact payload of `sys.stdout.write(f"\rProgress: {percent}%")` for a
chunk whose `status.progress()` is `p`, with `percent = int(p * 100)`. -/
def progressLine (p : ℚ) : String :=
  "\rProgress: " ++ toString (pythonInt (p * 100)) ++ "%"

/-- Observable behaviour of the `while response is None` polling loop. -/
structure LoopResult where
  /-- number of `request.next_chunk()` calls issued -/
  calls : Nat
  /-- payloads handed to `sys.stdout.write`, in order -/
  writes : List String
  /-- number of `sys.stdout.flush()` calls -/
  flushes : Nat
  /-- the final response, or the exception the loop raised -/
  result : Except PyError String
deriving DecidableEq

/-- The polling loop `while response is None: status, response =
request.next_chunk(); if status: ...` run against the scripted sequence of
chunk outcomes.  An exhausted script corresponds to a mock whose side-effect
list runs dry: the next call raises `StopIteration`. -/
def pollLoop : List ChunkStep → LoopResult
  | [] => ⟨1, [], 0, .error .stopIteration⟩
  | .progress p :: rest =>
      let r := pollLoop rest
      ⟨r.calls + 1, progressLine p :: r.writes, r.flushes + 1, r.result⟩
  | .done resp :: _ => ⟨1, [], 0, .ok resp⟩
  | .raise e :: _ => ⟨1, [], 0, .error e⟩

/-- Oracle environment for one run of `upload_video`. -/
structure UploadEnv where
  /-- the metadata file: `none` when the path does not exist
  (`open` raises `FileNotFoundError`), otherwise the outcome `json.load`
  produces on its contents (the parsed document kept opaque as a string) -/
  metadataFile : Option (Except PyError String)
  /-- scripted outcomes of successive `request.next_chunk()` calls -/
  chunks : List ChunkStep
deriving DecidableEq

/-- How a run of `upload_video` ends. -/
inductive UploadOutcome where
  /-- normal return after a successful upload of `resp` -/
  | normal (resp : String)
  /-- the function called `sys.exit code` -/
  | exited (code : Nat)
  /-- an uncaught exception propagated to the caller -/
  | raised (e : PyError)
deriving DecidableEq

/-- Result of one run of `upload_video`, with its observable effects. -/
structure UploadResult where
  /-- number of `youtube.videos().insert(...)` calls issued -/
  insertCalls : Nat
  /-- the `body=` argument of the insert call, when one was made -/
  insertBody : Option String
  /-- number of `request.next_chunk()` calls issued -/
  chunkCalls : Nat
  /-- payloads handed to `sys.stdout.write`, in order -/
  progressWrites : List String
  /-- number of `sys.stdout.flush()` calls -/
  flushes : Nat
  /-- lines produced by `print` calls, in order (the success path prints the
  response document itself, standing in for `json.dumps(response, indent=2)`) -/
  messages : List String
  /-- how the run ended -/
  outcome : UploadOutcome
deriving DecidableEq

/-- Whether `pat` is a leading segment of `cs`. -/
def leadingSegment : List Char → List Char → Bool
  | [], _ => true
  | _ :: _, [] => false
  | p :: ps, c :: cs => p == c && leadingSegment ps cs

/-- Whether `pat` occurs contiguously somewhere in `cs`. -/
def occursIn (pat : List Char) : List Char → Bool
  | [] => leadingSegment pat []
  | c :: cs => leadingSegment pat (c :: cs) || occursIn pat cs

/-- Python `pat in s` for the substring tests of the error classifier. -/
def containsSub (s pat : String) : Bool :=
  occursIn pat.data s.data

namespace YUMain

/-- The remediation lines `upload_video` prints after the failure banner,
classified by substring inspection of `str(error)`
(`src/youtube_uploader/main.py` lines 115–129). -/
def remediationLines (msg : String) : List String :=
  if containsSub msg "youtubeSignupRequired" then
    ["\n🔍 This error typically means:",
     "   • Your Google account doesn\x27t have a YouTube channel",
     "   • Please visit https://youtube.com and create a channel",
     "   • Then try uploading again"]
  else if containsSub msg "quotaExceeded" then
    ["\n🔍 This error means:",
     "   • YouTube API quota has been exceeded",
     "   • Please try again later or request quota increase"]
  else
    ["\n🔍 For troubleshooting, check:",
     "   • YouTube channel exists and is active",
     "   • OAuth credentials have YouTube upload permissions",
     "   • Video file is in a supported format"]

/-- `upload_video` from `src/youtube_uploader/main.py` (lines 77–131):
metadata load, insert call, polling loop inside
`try ... except ResumableUploadError`, substring-classified remediation and
`sys.exit(1)` on that error family only. -/
def upload_video (env : UploadEnv) (video_file : String) : UploadResult :=
  match env.metadataFile with
  | none =>
      -- open(metadata_file) raised FileNotFoundError before anything else
      ⟨0, none, 0, [], 0, [], .raised .fileNotFound⟩
  | some (.error e) =>
      -- json.load raised; nothing catches it
      ⟨0, none, 0, [], 0, [], .raised e⟩
  | some (.ok metadata) =>
      let banner := "⏳ Uploading " ++ video_file ++ " ..."
      let r := pollLoop env.chunks
      match r.result with
      | .ok resp =>
          ⟨1, some metadata, r.calls, r.writes, r.flushes,
           [banner, "\n✅ Upload successful!", resp], .normal resp⟩
      | .error (.resumable msg) =>
          ⟨1, some metadata, r.calls, r.writes, r.flushes,
           [banner, "\n❌ Upload failed: " ++ msg] ++ remediationLines msg,
           .exited 1⟩
      | .error e =>
          ⟨1, some metadata, r.calls, r.writes, r.flushes, [banner],
           .raised e⟩

end YUMain

namespace YULegacy

/-- `upload_video` from `src/upload.py` (lines 71–103): the same metadata
load, insert call and polling loop, but with no `try`/`except` at all —
every exception from the loop propagates to the caller. -/
def upload_video (env : UploadEnv) (video_file : String) : UploadResult :=
  match env.metadataFile with
  | none =>
      ⟨0, none, 0, [], 0, [], .raised .fileNotFound⟩
  | some (.error e) =>
      ⟨0, none, 0, [], 0, [], .raised e⟩
  | some (.ok metadata) =>
      let banner := "⏳ Uploading " ++ video_file ++ " ..."
      let r := pollLoop env.chunks
      match r.result with
      | .ok resp =>
          ⟨1, some metadata, r.calls, r.writes, r.flushes,
           [banner, "\n✅ Upload successful!", resp], .normal resp⟩
      | .error e =>
          ⟨1, some metadata, r.calls, r.writes, r.flushes, [banner],
           .raised e⟩

end YULegacy

/-! ## Concrete scenarios used to instantiate the theorems -/

/-- A cached credential whose `valid` flag is set. -/
def validCred : Credentials := ⟨true, false, none, "cached-token"⟩

/-- An expired cached credential carrying a non-empty refresh token. -/
def expiredCred : Credentials := ⟨false, true, some "refresh-tok", "old-token"⟩

/-- The credential a successful refresh or interactive flow would yield. -/
def freshCred : Credentials := ⟨true, false, some "refresh-tok", "new-token"⟩

/-- A run that starts with a valid cached credential. -/
def envValid : AuthEnv :=
  ⟨true, .ok validCred, .error (.other "refresh unused"), .ok (),
   "https://example.invalid/auth", .ok freshCred, .ok freshCred⟩

/-- A run that starts with an expired, refreshable cached credential whose
refresh call fails with `invalid_grant`. -/
def envRefreshErr : AuthEnv :=
  ⟨true, .ok expiredCred, .error (.other "invalid_grant"), .ok (),
   "https://example.invalid/auth", .ok freshCred, .ok freshCred⟩

/-- A run that starts with an expired, refreshable cached credential whose
refresh call succeeds. -/
def envRefreshOk : AuthEnv :=
  ⟨true, .ok expiredCred, .ok freshCred, .ok (),
   "https://example.invalid/auth", .ok freshCred, .ok freshCred⟩

/-- A headless run: no cached credential, readable client secret, and a
`run_local_server` call that raises because no display is available. -/
def headlessEnv : AuthEnv :=
  ⟨false, .error .unpickling, .error (.other "refresh unused"), .ok (),
   "https://example.invalid/auth", .error (.other "device unused"),
   .error (.other "No DISPLAY environment variable")⟩

/-- A run whose token store file exists but fails to deserialize, in an
environment where both interactive flows would succeed if entered. -/
def corruptCacheEnv : AuthEnv :=
  ⟨true, .error .unpickling, .error (.other "refresh unused"), .ok (),
   "https://example.invalid/auth", .ok freshCred, .ok freshCred⟩

/-! ## Claims about the credential manager -/

/-- Claim C1: for every cached credential whose `valid` flag is true,
`get_authenticated_service` performs no refresh call, enters neither
interactive-authorization mode, and the client handle it returns is built
from that exact credential object. -/
theorem c1_valid_cache_fast_path (env : AuthEnv) (flag : Bool)
    (c : Credentials) (hex : env.tokenFileExists = true)
    (hload : env.tokenFileLoad = .ok c) (hvalid : c.valid = true) :
    (YUMain.get_authenticated_service env flag).refreshCalls = 0 ∧
    (YUMain.get_authenticated_service env flag).deviceFlowEntries = 0 ∧
    (YUMain.get_authenticated_service env flag).localServerEntries = 0 ∧
    (YUMain.get_authenticated_service env flag).outcome = .ok ⟨c⟩ := by
  simp [YUMain.get_authenticated_service, hex, hload, hvalid]

/-- Witness for C1: the valid-cache scenario, evaluated. -/
theorem c1_valid_cache_fast_path_witness :
    (YUMain.get_authenticated_service envValid false).outcome =
      .ok ⟨validCred⟩ :=
  (c1_valid_cache_fast_path envValid false validCred rfl rfl rfl).2.2.2

/-- Claim C2: for every cached credential with `valid == false`,
`expired == true` and a non-empty refresh token,
`get_authenticated_service` invokes the refresh operation exactly once and
enters neither interactive-authorization mode; and if the refresh raises,
the error propagates uncaught (no fallback to reauthorization). -/
theorem c2_refresh_exactly_once (env : AuthEnv) (flag : Bool)
    (c : Credentials) (hex : env.tokenFileExists = true)
    (hload : env.tokenFileLoad = .ok c) (hvalid : c.valid = false)
    (hexp : c.expired = true) (htok : refreshTokenTruthy c = true) :
    (YUMain.get_authenticated_service env flag).refreshCalls = 1 ∧
    (YUMain.get_authenticated_service env flag).deviceFlowEntries = 0 ∧
    (YUMain.get_authenticated_service env flag).localServerEntries = 0 ∧
    (∀ e : PyError, env.refreshOutcome = .error e →
      (YUMain.get_authenticated_service env flag).outcome = .error e) ∧
    (∀ c2 : Credentials, env.refreshOutcome = .ok c2 →
      (YUMain.get_authenticated_service env flag).outcome = .ok ⟨c2⟩) := by
  cases hro : env.refreshOutcome with
  | error e =>
      simp [YUMain.get_authenticated_service, hex, hload, hvalid, hexp,
            htok, hro]
  | ok c2 =>
      simp [YUMain.get_authenticated_service, hex, hload, hvalid, hexp,
            htok, hro]

/-- Witness for C2: the failing-refresh scenario, evaluated. -/
theorem c2_refresh_exactly_once_witness :
    (YUMain.get_authenticated_service envRefreshErr false).refreshCalls = 1 ∧
    (YUMain.get_authenticated_service envRefreshErr false).outcome =
      .error (.other "invalid_grant") :=
  have h := c2_refresh_exactly_once envRefreshErr false expiredCred
    rfl rfl rfl rfl rfl
  ⟨h.1, h.2.2.2.1 (.other "invalid_grant") rfl⟩

/-- Claim C5 (divergence record): in `src/youtube_uploader/main.py` the
`flow.run_local_server(port=0)` call is not wrapped in any exception
handler, so when no display is available the failure propagates uncaught:
no remediation is printed, no `sys.exit(1)` is performed — contrary to the
spec and to the repository test `test_headless_server_error_handling`. -/
theorem c5_headless_failure_uncaught :
    (YUMain.get_authenticated_service headlessEnv false).outcome =
      .error (.other "No DISPLAY environment variable") ∧
    (YUMain.get_authenticated_service headlessEnv false).exitCode = none ∧
    (YUMain.get_authenticated_service headlessEnv false).messages = [] ∧
    (YUMain.get_authenticated_service headlessEnv false).localServerEntries
      = 1 :=
  ⟨rfl, rfl, rfl, rfl⟩

/-- Counterexample to claim C6: on a token store that exists but fails to
deserialize, `get_authenticated_service` does not proceed to acquire a new
credential — it propagates the deserialization error (zero interactive
entries, zero refreshes), even though treating the cache as absent would
have acquired a fresh credential in the same environment. -/
theorem c6_corrupt_cache_counterexample :
    (YUMain.get_authenticated_service corruptCacheEnv false).outcome =
      .error .unpickling ∧
    (YUMain.get_authenticated_service corruptCacheEnv false).deviceFlowEntries
      = 0 ∧
    (YUMain.get_authenticated_service corruptCacheEnv false).localServerEntries
      = 0 ∧
    (YUMain.get_authenticated_service corruptCacheEnv false).refreshCalls
      = 0 ∧
    (YUMain.get_authenticated_service
        { corruptCacheEnv with tokenFileExists := false } false).outcome =
      .ok ⟨freshCred⟩ :=
  ⟨rfl, rfl, rfl, rfl, rfl⟩

/-- Claim C6 as amended: for every token store file whose contents fail to
deserialize, `get_authenticated_service` propagates the deserialization
error uncaught — it performs no refresh, enters neither interactive mode,
and writes nothing — rather than treating the cache as absent. -/
theorem c6_corrupt_cache_propagates (env : AuthEnv) (flag : Bool)
    (e : PyError) (hex : env.tokenFileExists = true)
    (hload : env.tokenFileLoad = .error e) :
    (YUMain.get_authenticated_service env flag).outcome = .error e ∧
    (YUMain.get_authenticated_service env flag).refreshCalls = 0 ∧
    (YUMain.get_authenticated_service env flag).deviceFlowEntries = 0 ∧
    (YUMain.get_authenticated_service env flag).localServerEntries = 0 ∧
    (YUMain.get_authenticated_service env flag).tokenWrites = [] := by
  simp [YUMain.get_authenticated_service, hex, hload]

/-- Witness for the amended C6: the corrupt-cache scenario, evaluated. -/
theorem c6_corrupt_cache_propagates_witness :
    (YUMain.get_authenticated_service corruptCacheEnv true).outcome =
      .error .unpickling :=
  (c6_corrupt_cache_propagates corruptCacheEnv true .unpickling rfl rfl).1

/-! ## Claims about the upload driver -/

/-- For a non-negative progress fraction, Python truncation agrees with the
mathematical floor. -/
lemma pythonInt_eq_floor (q : ℚ) (h : 0 ≤ q) : pythonInt q = ⌊q⌋ := by
  simp [pythonInt, not_lt.mpr h]

/-- Running the polling loop against a script of `k - 1` intermediate
progress steps followed by a final response: `k` calls, one progress write
and one flush per intermediate step, and whatever follows the final
response is never consumed. -/
lemma pollLoop_script (ps : List ℚ) (resp : String) (rest : List ChunkStep) :
    pollLoop (ps.map ChunkStep.progress ++ ChunkStep.done resp :: rest) =
      ⟨ps.length + 1, ps.map progressLine, ps.length, .ok resp⟩ := by
  induction ps with
  | nil => rfl
  | cons p ps ih => simp [pollLoop, ih]

/-- Claim C3: when the first `k - 1` chunk-fetch calls return
`(progress, None)` and the `k`-th returns `(None, response)`, `upload_video`
calls the chunk-fetch operation exactly `k` times, stops at the first final
result, and for each intermediate call writes the carriage-return-prefixed
in-place update `"\rProgress: {floor(progress * 100)}%"` (no newline)
followed by an explicit flush. -/
theorem c3_polling_loop (env : UploadEnv) (vf md resp : String)
    (ps : List ℚ) (rest : List ChunkStep)
    (hmd : env.metadataFile = some (.ok md))
    (hch : env.chunks = ps.map ChunkStep.progress ++ ChunkStep.done resp :: rest)
    (hpos : ∀ p ∈ ps, 0 ≤ p) :
    (YUMain.upload_video env vf).chunkCalls = ps.length + 1 ∧
    (YUMain.upload_video env vf).progressWrites =
      ps.map (fun p => "\rProgress: " ++ toString ⌊p * 100⌋ ++ "%") ∧
    (YUMain.upload_video env vf).flushes = ps.length ∧
    (YUMain.upload_video env vf).outcome = .normal resp := by
  have hloop := pollLoop_script ps resp rest
  have hmap : ps.map progressLine =
      ps.map (fun p => "\rProgress: " ++ toString ⌊p * 100⌋ ++ "%") := by
    apply List.map_congr_left
    intro p hp
    have h100 : (0 : ℚ) ≤ p * 100 :=
      mul_nonneg (hpos p hp) (by norm_num)
    simp [progressLine, pythonInt_eq_floor _ h100]
  simp [YUMain.upload_video, hmd, hch, hloop, hmap]

/-- Witness for C3: the concrete scenario from the spec — one intermediate
call at progress 0.5, then the final response: exactly 2 chunk-fetch calls,
one in-place write `"\rProgress: 50%"`, one flush. -/
theorem c3_polling_loop_witness :
    (YUMain.upload_video
        ⟨some (.ok "md"), [.progress (1/2), .done "resp"]⟩
        "video.mp4").chunkCalls = 2 ∧
    (YUMain.upload_video
        ⟨some (.ok "md"), [.progress (1/2), .done "resp"]⟩
        "video.mp4").progressWrites = ["\rProgress: 50%"] ∧
    (YUMain.upload_video
        ⟨some (.ok "md"), [.progress (1/2), .done "resp"]⟩
        "video.mp4").flushes = 1 ∧
    (YUMain.upload_video
        ⟨some (.ok "md"), [.progress (1/2), .done "resp"]⟩
        "video.mp4").outcome = .normal "resp" := by
  have h := c3_polling_loop
    ⟨some (.ok "md"), [.progress (1/2), .done "resp"]⟩
    "video.mp4" "md" "resp" [1/2] [] rfl (by simp) (by norm_num)
  refine ⟨h.1, ?_, h.2.2.1, h.2.2.2⟩
  rw [h.2.1]
  norm_num
  rfl

/-- Claim C4: a resumable-upload error raised by the polling loop is caught:
`upload_video` prints the failure banner with the error text, then the
remediation block selected by substring inspection (`youtubeSignupRequired`
first, then `quotaExceeded`, else generic), and exits with code 1; any
other exception from the loop is not caught and propagates with no banner
beyond the initial status line. -/
theorem c4_error_classification (env : UploadEnv) (vf md : String)
    (hmd : env.metadataFile = some (.ok md)) :
    (∀ msg : String, (pollLoop env.chunks).result = .error (.resumable msg) →
      (YUMain.upload_video env vf).outcome = .exited 1 ∧
      (containsSub msg "youtubeSignupRequired" = true →
        (YUMain.upload_video env vf).messages =
          ["⏳ Uploading " ++ vf ++ " ...",
           "\n❌ Upload failed: " ++ msg,
           "\n🔍 This error typically means:",
           "   • Your Google account doesn\x27t have a YouTube channel",
           "   • Please visit https://youtube.com and create a channel",
           "   • Then try uploading again"]) ∧
      (containsSub msg "youtubeSignupRequired" = false →
        containsSub msg "quotaExceeded" = true →
        (YUMain.upload_video env vf).messages =
          ["⏳ Uploading " ++ vf ++ " ...",
           "\n❌ Upload failed: " ++ msg,
           "\n🔍 This error means:",
           "   • YouTube API quota has been exceeded",
           "   • Please try again later or request quota increase"]) ∧
      (containsSub msg "youtubeSignupRequired" = false →
        containsSub msg "quotaExceeded" = false →
        (YUMain.upload_video env vf).messages =
          ["⏳ Uploading " ++ vf ++ " ...",
           "\n❌ Upload failed: " ++ msg,
           "\n🔍 For troubleshooting, check:",
           "   • YouTube channel exists and is active",
           "   • OAuth credentials have YouTube upload permissions",
           "   • Video file is in a supported format"])) ∧
    (∀ e : PyError, (pollLoop env.chunks).result = .error e →
      (∀ m : String, e ≠ .resumable m) →
      (YUMain.upload_video env vf).outcome = .raised e ∧
      (YUMain.upload_video env vf).messages =
        ["⏳ Uploading " ++ vf ++ " ..."]) := by
  constructor
  · intro msg hres
    refine ⟨?_, ?_, ?_, ?_⟩
    · simp [YUMain.upload_video, hmd, hres]
    · intro h1
      simp [YUMain.upload_video, hmd, hres, YUMain.remediationLines, h1]
    · intro h1 h2
      simp [YUMain.upload_video, hmd, hres, YUMain.remediationLines, h1, h2]
    · intro h1 h2
      simp [YUMain.upload_video, hmd, hres, YUMain.remediationLines, h1, h2]
  · intro e hres hnr
    cases e with
    | resumable m => exact absurd rfl (hnr m)
    | fileNotFound => simp [YUMain.upload_video, hmd, hres]
    | unpickling => simp [YUMain.upload_video, hmd, hres]
    | jsonDecode => simp [YUMain.upload_video, hmd, hres]
    | stopIteration => simp [YUMain.upload_video, hmd, hres]
    | other m => simp [YUMain.upload_video, hmd, hres]

/-- Witness for C4: a quota-exceeded failure, evaluated — exit code 1 and
the quota remediation block. -/
theorem c4_error_classification_witness :
    (YUMain.upload_video
        ⟨some (.ok "md"), [.raise (.resumable "HttpError 403: quotaExceeded")]⟩
        "video.mp4").outcome = .exited 1 ∧
    (YUMain.upload_video
        ⟨some (.ok "md"), [.raise (.resumable "HttpError 403: quotaExceeded")]⟩
        "video.mp4").messages =
      ["⏳ Uploading video.mp4 ...",
       "\n❌ Upload failed: HttpError 403: quotaExceeded",
       "\n🔍 This error means:",
       "   • YouTube API quota has been exceeded",
       "   • Please try again later or request quota increase"] :=
  have h := (c4_error_classification
    ⟨some (.ok "md"), [.raise (.resumable "HttpError 403: quotaExceeded")]⟩
    "video.mp4" "md" rfl).1 "HttpError 403: quotaExceeded" rfl
  ⟨h.1, h.2.2.1 (by decide) (by decide)⟩

/-- Claim C7: a missing metadata file makes `upload_video` fail with a
file-not-found error before any insert call (zero insert calls, zero chunk
calls); a metadata file that is not valid JSON makes it fail with the parse
error, propagated uncaught, again with zero insert calls. -/
theorem c7_metadata_errors_before_insert (env : UploadEnv) (vf : String) :
    (env.metadataFile = none →
      (YUMain.upload_video env vf).outcome = .raised .fileNotFound ∧
      (YUMain.upload_video env vf).insertCalls = 0 ∧
      (YUMain.upload_video env vf).chunkCalls = 0) ∧
    (∀ e : PyError, env.metadataFile = some (.error e) →
      (YUMain.upload_video env vf).outcome = .raised e ∧
      (YUMain.upload_video env vf).insertCalls = 0 ∧
      (YUMain.upload_video env vf).chunkCalls = 0) := by
  constructor
  · intro h
    simp [YUMain.upload_video, h]
  · intro e h
    simp [YUMain.upload_video, h]

/-- Witness for C7: a missing metadata file and an unparsable one,
evaluated. -/
theorem c7_metadata_errors_before_insert_witness :
    (YUMain.upload_video ⟨none, []⟩ "video.mp4").insertCalls = 0 ∧
    (YUMain.upload_video ⟨none, []⟩ "video.mp4").outcome =
      .raised .fileNotFound ∧
    (YUMain.upload_video ⟨some (.error .jsonDecode), []⟩ "video.mp4").outcome
      = .raised .jsonDecode :=
  ⟨((c7_metadata_errors_before_insert ⟨none, []⟩ "video.mp4").1 rfl).2.1,
   ((c7_metadata_errors_before_insert ⟨none, []⟩ "video.mp4").1 rfl).1,
   ((c7_metadata_errors_before_insert ⟨some (.error .jsonDecode), []⟩
      "video.mp4").2 .jsonDecode rfl).1⟩

/-- Claim C9: the `src/upload.py` variant of `upload_video` catches nothing:
any error raised by the polling loop — in particular a resumable-upload
error — propagates to the caller with no failure banner, no substring
classification and no exit, unlike the `src/youtube_uploader/main.py`
variant, which exits with code 1 on the same input. -/
theorem c9_legacy_upload_catches_nothing (env : UploadEnv) (vf md : String)
    (hmd : env.metadataFile = some (.ok md)) :
    (∀ e : PyError, (pollLoop env.chunks).result = .error e →
      (YULegacy.upload_video env vf).outcome = .raised e ∧
      (YULegacy.upload_video env vf).messages =
        ["⏳ Uploading " ++ vf ++ " ..."]) ∧
    (∀ msg : String, (pollLoop env.chunks).result = .error (.resumable msg) →
      (YULegacy.upload_video env vf).outcome = .raised (.resumable msg) ∧
      (YUMain.upload_video env vf).outcome = .exited 1) := by
  constructor
  · intro e hres
    simp [YULegacy.upload_video, hmd, hres]
  · intro msg hres
    constructor
    · simp [YULegacy.upload_video, hmd, hres]
    · simp [YUMain.upload_video, hmd, hres]

/-- Witness for C9: a resumable-upload error under the legacy variant
propagates, while the packaged variant exits with code 1. -/
theorem c9_legacy_upload_catches_nothing_witness :
    (YULegacy.upload_video
        ⟨some (.ok "md"), [.raise (.resumable "quotaExceeded")]⟩
        "v.mp4").outcome = .raised (.resumable "quotaExceeded") ∧
    (YUMain.upload_video
        ⟨some (.ok "md"), [.raise (.resumable "quotaExceeded")]⟩
        "v.mp4").outcome = .exited 1 :=
  (c9_legacy_upload_catches_nothing
    ⟨some (.ok "md"), [.raise (.resumable "quotaExceeded")]⟩
    "v.mp4" "md" rfl).2 "quotaExceeded" rfl

/-! ## Frame conditions of the credential manager -/

/-- Whether a run of `get_authenticated_service` returned normally. -/
def authOk (r : AuthResult) : Bool :=
  match r.outcome with
  | .ok _ => true
  | .error _ => false

/-- The token-store write discipline of one run: at most one write; a write
happens exactly when the run returns normally after performing a refresh or
entering an interactive flow; and whatever is written is the credential the
returned client is bound to. -/
def writeDiscipline (r : AuthResult) : Prop :=
  r.tokenWrites.length ≤ 1 ∧
  (r.tokenWrites ≠ [] ↔ authOk r = true ∧
    (r.refreshCalls = 1 ∨ r.deviceFlowEntries = 1 ∨
     r.localServerEntries = 1)) ∧
  (∀ cw : Credentials, r.tokenWrites = [cw] → r.outcome = .ok ⟨cw⟩)

lemma writeDiscipline_interactiveAuth (env : AuthEnv) (flag : Bool) :
    writeDiscipline (YUMain.interactiveAuth env flag) := by
  unfold writeDiscipline YUMain.interactiveAuth authOk
  cases flag <;>
    cases hcs : env.clientSecretLoad <;>
      cases hd : env.deviceFlowOutcome <;>
        cases hl : env.localServerOutcome <;>
          simp [hcs, hd, hl]

/-- Claim C8: in every run of `get_authenticated_service` the token store is
written at most once, a write happens exactly when a refresh or a new
interactive authorization succeeds (and then it stores the credential the
returned client is bound to), and a run that finds a valid cached
credential leaves the token store untouched. -/
theorem c8_token_store_write_discipline (env : AuthEnv) (flag : Bool) :
    writeDiscipline (YUMain.get_authenticated_service env flag) ∧
    (cachedValid env = true →
      (YUMain.get_authenticated_service env flag).tokenWrites = []) := by
  obtain ⟨tfe, tfl, ro, csl, au, dfo, lso⟩ := env
  cases tfe with
  | false =>
      exact ⟨writeDiscipline_interactiveAuth _ _, fun h => by
        simp [cachedValid] at h⟩
  | true =>
      cases tfl with
      | error e =>
          constructor
          · simp [writeDiscipline, YUMain.get_authenticated_service, authOk]
          · intro h
            simp [cachedValid] at h
      | ok c =>
          obtain ⟨cv, ce, crt, ct⟩ := c
          cases cv with
          | true =>
              constructor
              · simp [writeDiscipline, YUMain.get_authenticated_service,
                      authOk]
              · intro h
                simp [YUMain.get_authenticated_service]
          | false =>
              refine ⟨?_, fun h => by simp [cachedValid] at h⟩
              cases hrt : refreshTokenTruthy ⟨false, ce, crt, ct⟩ with
              | true =>
                  cases ce with
                  | true =>
                      cases ro with
                      | error e2 =>
                          simp [writeDiscipline,
                                YUMain.get_authenticated_service, authOk,
                                hrt]
                      | ok c2 =>
                          simp [writeDiscipline,
                                YUMain.get_authenticated_service, authOk,
                                hrt]
                  | false =>
                      have hred : YUMain.get_authenticated_service
                          ⟨true, .ok ⟨false, false, crt, ct⟩, ro, csl, au,
                           dfo, lso⟩ flag =
                          YUMain.interactiveAuth
                          ⟨true, .ok ⟨false, false, crt, ct⟩, ro, csl, au,
                           dfo, lso⟩ flag := by
                        simp [YUMain.get_authenticated_service]
                      rw [hred]
                      exact writeDiscipline_interactiveAuth _ _
              | false =>
                  have hred : YUMain.get_authenticated_service
                      ⟨true, .ok ⟨false, ce, crt, ct⟩, ro, csl, au, dfo,
                       lso⟩ flag =
                      YUMain.interactiveAuth
                      ⟨true, .ok ⟨false, ce, crt, ct⟩, ro, csl, au, dfo,
                       lso⟩ flag := by
                    simp [YUMain.get_authenticated_service, hrt]
                  rw [hred]
                  exact writeDiscipline_interactiveAuth _ _

/-- Witness for C8: the valid-cache run leaves the token store untouched. -/
theorem c8_token_store_write_discipline_witness :
    (YUMain.get_authenticated_service envValid false).tokenWrites = [] :=
  (c8_token_store_write_discipline envValid false).2 rfl

/-- Claim C10: on every run that starts from a valid cached credential, or
from an expired cached credential with a non-empty refresh token, neither
variant of `get_authenticated_service` ever opens the client-secret file,
and the entire run result is independent of what reading that file would
yield — so a nonexistent client-secret path cannot make these runs fail. -/
theorem c10_client_secret_untouched (env : AuthEnv) (flag : Bool)
    (c : Credentials) (hex : env.tokenFileExists = true)
    (hload : env.tokenFileLoad = .ok c)
    (hpath : c.valid = true ∨
      (c.valid = false ∧ c.expired = true ∧ refreshTokenTruthy c = true)) :
    (YUMain.get_authenticated_service env flag).clientSecretOpens = 0 ∧
    (YULegacy.get_authenticated_service env flag).clientSecretOpens = 0 ∧
    (∀ csl : Except PyError Unit,
      YUMain.get_authenticated_service
        { env with clientSecretLoad := csl } flag =
        YUMain.get_authenticated_service env flag) ∧
    (∀ csl : Except PyError Unit,
      YULegacy.get_authenticated_service
        { env with clientSecretLoad := csl } flag =
        YULegacy.get_authenticated_service env flag) := by
  obtain ⟨tfe, tfl, ro, csl0, au, dfo, lso⟩ := env
  simp only [AuthEnv.tokenFileExists] at hex
  simp only [AuthEnv.tokenFileLoad] at hload
  subst hex
  subst hload
  rcases hpath with hv | ⟨hv, he, ht⟩
  · simp [YUMain.get_authenticated_service,
          YULegacy.get_authenticated_service, hv]
  · cases ro with
    | error e =>
        simp [YUMain.get_authenticated_service,
              YULegacy.get_authenticated_service, hv, he, ht]
    | ok c2 =>
        simp [YUMain.get_authenticated_service,
              YULegacy.get_authenticated_service, hv, he, ht]

/-- Witness for C10: evaluated on the valid-cache run and on the
expired-refreshable run. -/
theorem c10_client_secret_untouched_witness :
    (YUMain.get_authenticated_service envValid false).clientSecretOpens
      = 0 ∧
    (YULegacy.get_authenticated_service envRefreshOk false).clientSecretOpens
      = 0 :=
  ⟨(c10_client_secret_untouched envValid false validCred rfl rfl
      (Or.inl rfl)).1,
   (c10_client_secret_untouched envRefreshOk false expiredCred rfl rfl
      (Or.inr ⟨rfl, rfl, by decide⟩)).2.1⟩
